import Mathlib

/-!
# Verification of the smart-campus-manager core

Shallow embedding of the two source scripts of the repository:

* `scripts/predictive-maintenance-engine.py` — the predictive maintenance
  engine (mock `RandomForestRegressor` / `IsolationForest`, the
  `PredictiveMaintenanceEngine` class with its scoring helpers, batch
  prediction and schedule bucketing);
* `scripts/setup-langgraph-agent.py` — the mock LangGraph executor
  (`StateGraph`, `CompiledGraph.ainvoke`, `END`) and the `SmartCampusAgent`
  wiring plus its `_predict_maintenance` stage.

Python floats are modelled as exact rationals (`ℚ`), Python ints as `ℤ`,
strings as `String`.  `int(x)` on a float truncates toward zero and is
modelled by `pyTrunc`; Python's integer `//` is floor division, modelled by
`Int.fdiv`.  The mock models draw from `np.random`; those draws are made
explicit oracle inputs (`Draws`), so every definition is a pure function of
its inputs including the random draws the interpreter would produce.
-/

namespace Campus

/-- Python `int(q)` on a float: truncation toward zero. -/
def pyTrunc (q : ℚ) : ℤ := if 0 ≤ q then ⌊q⌋ else ⌈q⌉

/-- Mathematical rounding, half upward.  (Python's `round` breaks ties to
even; the two agree wherever this definition is evaluated below, no tie
arising.) -/
def roundQ (q : ℚ) : ℤ := ⌊q + 1/2⌋

/-- `EquipmentData` dataclass of `predictive-maintenance-engine.py`.
Maintenance / failure history entries are dicts whose contents the engine
never inspects (only their length is used), modelled as opaque strings. -/
structure EquipmentData where
  equipment_id : String
  equipment_type : String
  age_years : ℚ
  usage_hours : ℚ
  temperature : ℚ
  vibration : ℚ
  pressure : ℚ
  current_draw : ℚ
  last_maintenance_days : ℤ
  maintenance_history : List String
  failure_history : List String
deriving DecidableEq, Repr

/-- `MaintenancePrediction` dataclass of `predictive-maintenance-engine.py`. -/
structure MaintenancePrediction where
  equipment_id : String
  failure_probability : ℚ
  days_to_failure : ℤ
  confidence_score : ℚ
  risk_level : String
  recommended_actions : List String
  estimated_cost : ℚ
  factors : List String
deriving DecidableEq, Repr

/-- Mock `RandomForestRegressor`: only the fitted flag is observable state;
`fit` ignores its data and sets the flag. -/
structure RandomForestRegressor where
  n_estimators : ℕ
  random_state : ℕ
  is_fitted : Bool
deriving DecidableEq, Repr

/-- `RandomForestRegressor(n_estimators=100, random_state=42)`. -/
def RandomForestRegressor.init : RandomForestRegressor :=
  { n_estimators := 100, random_state := 42, is_fitted := false }

/-- `RandomForestRegressor.fit(X, y)`: marks the model fitted. -/
def RandomForestRegressor.fit (m : RandomForestRegressor) : RandomForestRegressor :=
  { m with is_fitted := true }

/-- `RandomForestRegressor.predict` on a single row: raises
`ValueError("Model not fitted")` when unfitted, otherwise returns the
`np.random.uniform(0.1, 0.9)` draw, supplied here as the oracle `draw`. -/
def RandomForestRegressor.predict (m : RandomForestRegressor) (draw : ℚ) :
    Except String ℚ :=
  if m.is_fitted then .ok draw else .error "Model not fitted"

/-- Mock `IsolationForest`: only the fitted flag is observable state. -/
structure IsolationForest where
  contamination : ℚ
  random_state : ℕ
  is_fitted : Bool
deriving DecidableEq, Repr

/-- `IsolationForest(contamination=0.1, random_state=42)`. -/
def IsolationForest.init : IsolationForest :=
  { contamination := 1/10, random_state := 42, is_fitted := false }

/-- `IsolationForest.fit(X)`: marks the model fitted. -/
def IsolationForest.fit (m : IsolationForest) : IsolationForest :=
  { m with is_fitted := true }

/-- `IsolationForest.predict` on a single row: raises
`ValueError("Model not fitted")` when unfitted, otherwise returns the
`np.random.choice([-1, 1], ...)` draw (−1 anomaly, 1 normal), supplied here
as the oracle `draw`. -/
def IsolationForest.predict (m : IsolationForest) (draw : ℤ) :
    Except String ℤ :=
  if m.is_fitted then .ok draw else .error "Model not fitted"

/-- The mutable state of a `PredictiveMaintenanceEngine` instance. -/
structure PredictiveMaintenanceEngine where
  failure_model : RandomForestRegressor
  anomaly_detector : IsolationForest
  is_trained : Bool
deriving DecidableEq, Repr

/-- `PredictiveMaintenanceEngine.__init__`. -/
def PredictiveMaintenanceEngine.init : PredictiveMaintenanceEngine :=
  { failure_model := RandomForestRegressor.init
    anomaly_detector := IsolationForest.init
    is_trained := false }

/-- `_calculate_failure_probability`: weighted sum of five condition factors
clamped to `[0.01, 0.99]`.  Note the temperature factor is floored at 0 but
not capped at 1, unlike the other four factors. -/
def PredictiveMaintenanceEngine.calculate_failure_probability
    (equipment : EquipmentData) : ℚ :=
  let age_factor := min (equipment.age_years / 20) 1
  let usage_factor := min (equipment.usage_hours / 50000) 1
  let temp_factor := max 0 ((equipment.temperature - 25) / 50)
  let vibration_factor := min (equipment.vibration / 10) 1
  let maintenance_factor := min ((equipment.last_maintenance_days : ℚ) / 365) 1
  let failure_prob := age_factor * 0.3 + usage_factor * 0.25 + temp_factor * 0.2 +
    vibration_factor * 0.15 + maintenance_factor * 0.1
  min (max failure_prob 0.01) 0.99

/-- The per-type multipliers of `_calculate_days_to_failure`
(`type_multipliers.get(equipment_type, 1.0)`). -/
def typeMultiplier (equipment_type : String) : ℚ :=
  if equipment_type = "hvac" then 1.2
  else if equipment_type = "elevator" then 0.8
  else if equipment_type = "generator" then 1.5
  else if equipment_type = "pump" then 1.0
  else if equipment_type = "lighting" then 2.0
  else 1.0

/-- `_calculate_days_to_failure`: `base_days = int((1 - failure_prob) * 365)`,
then `max(1, int(base_days * multiplier))`.  Both `int(...)` conversions
truncate toward zero. -/
def PredictiveMaintenanceEngine.calculate_days_to_failure
    (failure_prob : ℚ) (equipment : EquipmentData) : ℤ :=
  let base_days := pyTrunc ((1 - failure_prob) * 365)
  let multiplier := typeMultiplier equipment.equipment_type
  max 1 (pyTrunc ((base_days : ℚ) * multiplier))

/-- `_determine_risk_level`: first-match cascade over anomaly flag, failure
probability and days to failure. -/
def PredictiveMaintenanceEngine.determine_risk_level
    (failure_prob : ℚ) (days_to_failure : ℤ) (is_anomaly : Bool) : String :=
  if is_anomaly ∨ failure_prob > 0.8 ∨ days_to_failure ≤ 7 then "critical"
  else if failure_prob > 0.6 ∨ days_to_failure ≤ 30 then "high"
  else if failure_prob > 0.4 ∨ days_to_failure ≤ 90 then "medium"
  else "low"

/-- `_generate_recommendations`: risk-level base list, extended with
equipment-type-specific actions, with an investigation action appended last
when anomalous. -/
def PredictiveMaintenanceEngine.generate_recommendations
    (equipment : EquipmentData) (risk_level : String) (is_anomaly : Bool) :
    List String :=
  let recommendations :=
    if risk_level = "critical" then
      ["Schedule immediate inspection", "Prepare replacement parts",
       "Consider temporary shutdown if safe", "Notify maintenance team urgently"]
    else if risk_level = "high" then
      ["Schedule maintenance within 1 week", "Order replacement parts",
       "Increase monitoring frequency", "Plan for potential downtime"]
    else if risk_level = "medium" then
      ["Schedule preventive maintenance", "Review maintenance procedures",
       "Monitor performance trends"]
    else
      ["Continue regular monitoring", "Maintain current schedule"]
  let recommendations :=
    if equipment.equipment_type = "hvac" then
      (if equipment.temperature > 30 then
        recommendations ++ ["Check cooling system efficiency"]
       else recommendations) ++ ["Inspect and replace filters if needed"]
    else if equipment.equipment_type = "elevator" then
      recommendations ++ ["Inspect cables and pulleys", "Check safety systems",
        "Lubricate moving parts"]
    else if equipment.equipment_type = "generator" then
      recommendations ++ ["Test under load conditions", "Check fuel system",
        "Inspect electrical connections"]
    else recommendations
  if is_anomaly then recommendations ++ ["Investigate unusual sensor readings"]
  else recommendations

/-- `_estimate_maintenance_cost`: `base_cost * risk_multiplier * (1 + age/20)`. -/
def PredictiveMaintenanceEngine.estimate_maintenance_cost
    (equipment : EquipmentData) (risk_level : String) : ℚ :=
  let base_cost : ℚ :=
    if equipment.equipment_type = "hvac" then 800
    else if equipment.equipment_type = "elevator" then 2500
    else if equipment.equipment_type = "generator" then 1500
    else if equipment.equipment_type = "pump" then 600
    else if equipment.equipment_type = "lighting" then 200
    else 1000
  let multiplier : ℚ :=
    if risk_level = "critical" then 2.5
    else if risk_level = "high" then 1.8
    else if risk_level = "medium" then 1.2
    else if risk_level = "low" then 1.0
    else 1.0
  let age_multiplier := 1 + equipment.age_years / 20
  base_cost * multiplier * age_multiplier

/-- `_calculate_confidence`: `0.7` base plus history, sensor-consistency and
age terms, capped at `0.95` (no lower cap). -/
def PredictiveMaintenanceEngine.calculate_confidence
    (equipment : EquipmentData) : ℚ :=
  let base_confidence : ℚ := 0.7
  let history_factor := min ((equipment.maintenance_history.length : ℚ) / 10) 0.2
  let sensor_consistency : ℚ := 0.1
  let age_factor := min (equipment.age_years / 10) 0.1
  min (base_confidence + history_factor + sensor_consistency + age_factor) 0.95

/-- `_identify_factors`: one tag per crossed threshold, defaulting to the
single "Normal operating conditions" tag. -/
def PredictiveMaintenanceEngine.identify_factors
    (equipment : EquipmentData) (is_anomaly : Bool) : List String :=
  let factors : List String :=
    (if equipment.age_years > 10 then ["Equipment age"] else []) ++
    (if equipment.usage_hours > 30000 then ["High usage hours"] else []) ++
    (if equipment.temperature > 30 then ["Elevated temperature"] else []) ++
    (if equipment.vibration > 5 then ["Excessive vibration"] else []) ++
    (if equipment.last_maintenance_days > 180 then ["Overdue maintenance"] else []) ++
    (if is_anomaly then ["Anomalous sensor readings"] else []) ++
    (if equipment.failure_history.length > 2 then ["Previous failure history"] else [])
  if factors = [] then ["Normal operating conditions"] else factors

/-- `train_models`: computes feature rows and `_calculate_failure_probability`
targets (which the mock models discard), fits both models and sets
`is_trained`.  The resulting engine state does not depend on the data. -/
def PredictiveMaintenanceEngine.train_models
    (engine : PredictiveMaintenanceEngine) (historical_data : List EquipmentData) :
    PredictiveMaintenanceEngine :=
  let _y_train := historical_data.map
    PredictiveMaintenanceEngine.calculate_failure_probability
  { engine with
    failure_model := engine.failure_model.fit
    anomaly_detector := engine.anomaly_detector.fit
    is_trained := true }

/-- `_mock_training`: generates 100 synthetic random records and calls
`train_models` on them.  Since `train_models`'s resulting engine state is
independent of its data, the synthetic records are irrelevant and the call
is modelled as `train_models` on the empty history. -/
def PredictiveMaintenanceEngine.mock_training
    (engine : PredictiveMaintenanceEngine) : PredictiveMaintenanceEngine :=
  engine.train_models []

/-- The two `np.random` draws one call to `predict_maintenance` consumes:
the `RandomForestRegressor.predict` uniform draw from `[0.1, 0.9)` and the
`IsolationForest.predict` choice from `{-1, 1}`. -/
structure Draws where
  failure_draw : ℚ
  anomaly_draw : ℤ
deriving DecidableEq, Repr

/-- `predict_maintenance`: lazily bootstraps via `_mock_training` when the
engine is untrained, queries both mock models (which can only raise when
unfitted), then assembles the prediction from the pure helpers.  Returns the
mutated engine together with the prediction; failures are `Except.error`. -/
def PredictiveMaintenanceEngine.predict_maintenance
    (engine : PredictiveMaintenanceEngine) (equipment_data : EquipmentData)
    (draws : Draws) :
    Except String (PredictiveMaintenanceEngine × MaintenancePrediction) :=
  let engine := if engine.is_trained then engine else engine.mock_training
  match engine.failure_model.predict draws.failure_draw with
  | .error e => .error e
  | .ok failure_prob =>
    match engine.anomaly_detector.predict draws.anomaly_draw with
    | .error e => .error e
    | .ok anomaly_score =>
      let is_anomaly := anomaly_score = -1
      let days_to_failure :=
        PredictiveMaintenanceEngine.calculate_days_to_failure failure_prob
          equipment_data
      let risk_level :=
        PredictiveMaintenanceEngine.determine_risk_level failure_prob
          days_to_failure is_anomaly
      let recommendations :=
        PredictiveMaintenanceEngine.generate_recommendations equipment_data
          risk_level is_anomaly
      let estimated_cost :=
        PredictiveMaintenanceEngine.estimate_maintenance_cost equipment_data
          risk_level
      let confidence_score :=
        PredictiveMaintenanceEngine.calculate_confidence equipment_data
      let factors :=
        PredictiveMaintenanceEngine.identify_factors equipment_data is_anomaly
      .ok (engine,
        { equipment_id := equipment_data.equipment_id
          failure_probability := failure_prob
          days_to_failure := days_to_failure
          confidence_score := confidence_score
          risk_level := risk_level
          recommended_actions := recommendations
          estimated_cost := estimated_cost
          factors := factors })

/-- Observation helper: the prediction carried by a successful
`predict_maintenance` result, `none` on failure. -/
def okPrediction
    (r : Except String (PredictiveMaintenanceEngine × MaintenancePrediction)) :
    Option MaintenancePrediction :=
  match r with
  | .ok p => some p.2
  | .error _ => none

/-- `batch_predict`: iterates the equipment list, appending each successful
prediction and skipping (after logging) any item whose scoring raises.  The
engine state is threaded through the loop; `draws` supplies the random
draws of the i-th call. -/
def PredictiveMaintenanceEngine.batch_predict
    (engine : PredictiveMaintenanceEngine) (equipment_list : List EquipmentData)
    (draws : ℕ → Draws) (i : ℕ := 0) :
    PredictiveMaintenanceEngine × List MaintenancePrediction :=
  match equipment_list with
  | [] => (engine, [])
  | equipment :: rest =>
    match engine.predict_maintenance equipment (draws i) with
    | .ok (engine', prediction) =>
      let (engine'', predictions) :=
        engine'.batch_predict rest draws (i + 1)
      (engine'', prediction :: predictions)
    | .error _ =>
      engine.batch_predict rest draws (i + 1)

/-- The loop of `batch_predict` abstracted over its callee: `score` stands
for `self.predict_maintenance` applied to one item (whose failures,
per the spec, arise per item).  Successful predictions are appended in
order; a failing item is logged and skipped. -/
def batchPredictWith (score : EquipmentData → Except String MaintenancePrediction)
    (equipment_list : List EquipmentData) : List MaintenancePrediction :=
  match equipment_list with
  | [] => []
  | equipment :: rest =>
    match score equipment with
    | .ok prediction => prediction :: batchPredictWith score rest
    | .error _ => batchPredictWith score rest

/-- The four-bucket schedule of `generate_maintenance_schedule`. -/
structure MaintenanceSchedule where
  immediate : List MaintenancePrediction
  this_week : List MaintenancePrediction
  this_month : List MaintenancePrediction
  next_quarter : List MaintenancePrediction
deriving DecidableEq, Repr

/-- `generate_maintenance_schedule`: appends each prediction to the first
bucket whose condition holds (immediate: critical risk or days ≤ 3;
this_week: days ≤ 7; this_month: days ≤ 30; else next_quarter). -/
def PredictiveMaintenanceEngine.generate_maintenance_schedule
    (predictions : List MaintenancePrediction) : MaintenanceSchedule :=
  predictions.foldl (fun schedule prediction =>
    if prediction.risk_level = "critical" ∨ prediction.days_to_failure ≤ 3 then
      { schedule with immediate := schedule.immediate ++ [prediction] }
    else if prediction.days_to_failure ≤ 7 then
      { schedule with this_week := schedule.this_week ++ [prediction] }
    else if prediction.days_to_failure ≤ 30 then
      { schedule with this_month := schedule.this_month ++ [prediction] }
    else
      { schedule with next_quarter := schedule.next_quarter ++ [prediction] })
    { immediate := [], this_week := [], this_month := [], next_quarter := [] }

/-! ## `setup-langgraph-agent.py`: mock LangGraph executor and agent wiring -/

/-- Mock `StateGraph`: `nodes` is a dict name → handler, `edges` a dict
name → list of successor names, modelled as association lists (all campus
node names are distinct, so insertion order is immaterial). -/
structure StateGraph (S : Type) where
  nodes : List (String × (S → S))
  edges : List (String × List String)
  entry_point : Option String

/-- `StateGraph.__init__`. -/
def StateGraph.empty (S : Type) : StateGraph S :=
  { nodes := [], edges := [], entry_point := none }

/-- `StateGraph.add_node`. -/
def StateGraph.add_node (g : StateGraph S) (name : String) (func : S → S) :
    StateGraph S :=
  { g with nodes := g.nodes ++ [(name, func)] }

/-- The dict update performed by `StateGraph.add_edge`: create the key's
list if absent (`if from_node not in self.edges: self.edges[from_node] = []`),
then append `to_node` to it. -/
def addEdgeList (edges : List (String × List String)) (from_node to_node : String) :
    List (String × List String) :=
  if (edges.lookup from_node).isSome then
    edges.map (fun p => if p.1 = from_node then (p.1, p.2 ++ [to_node]) else p)
  else
    edges ++ [(from_node, [to_node])]

/-- `StateGraph.add_edge`: appends `to_node` to the (possibly fresh) edge
list of `from_node`. -/
def StateGraph.add_edge (g : StateGraph S) (from_node to_node : String) :
    StateGraph S :=
  { g with edges := addEdgeList g.edges from_node to_node }

/-- `StateGraph.set_entry_point`. -/
def StateGraph.set_entry_point (g : StateGraph S) (node : String) :
    StateGraph S :=
  { g with entry_point := some node }

/-- Mock `CompiledGraph`. -/
structure CompiledGraph (S : Type) where
  nodes : List (String × (S → S))
  edges : List (String × List String)
  entry_point : Option String

/-- `StateGraph.compile`. -/
def StateGraph.compile (g : StateGraph S) : CompiledGraph S :=
  { nodes := g.nodes, edges := g.edges, entry_point := g.entry_point }

/-- The terminal sentinel `END = "END"`. -/
def END : String := "END"

/-- The loop of `CompiledGraph.ainvoke`, with explicit fuel (the Python
`while` has no bound; every theorem below supplies enough fuel) and an
instrumentation trace recording the name of each node whose handler is
invoked, in order.  Per the source: a falsy current node stops the loop; an
unregistered current node breaks without invoking; after invoking, the walk
follows `edges[current][0]` when present, else breaks.  (An empty edge list
is unreachable through `add_edge`, which only ever appends.) -/
def CompiledGraph.ainvokeAux (g : CompiledGraph S) :
    ℕ → Option String → S → S × List String
  | 0, _, state => (state, [])
  | fuel + 1, current_node, state =>
    match current_node with
    | none => (state, [])
    | some c =>
      if c = "" then (state, [])
      else
        match g.nodes.lookup c with
        | some func =>
          let state' := func state
          match g.edges.lookup c with
          | some (next :: _) =>
            let r := g.ainvokeAux fuel (some next) state'
            (r.1, c :: r.2)
          | some [] => (state', [c])
          | none => (state', [c])
        | none => (state, [])

/-- `CompiledGraph.ainvoke`, returning the final state together with the
instrumentation trace of invoked node names. -/
def CompiledGraph.ainvoke (g : CompiledGraph S) (fuel : ℕ) (state : S) :
    S × List String :=
  g.ainvokeAux fuel g.entry_point state

/-- The workflow `SmartCampusAgent._build_agent_graph` assembles before its
final `workflow.compile()`, abstracted over the six bound stage methods it
registers (the wiring itself never inspects them): adds the six nodes, sets
the entry point and chains the six edges ending at `END`. -/
def agent_workflow (monitor_sensors predict_maintenance optimize_energy
    generate_alerts generate_recommendations make_decisions : S → S) :
    StateGraph S :=
  let workflow := StateGraph.empty S
  let workflow := workflow.add_node "sensor_monitor" monitor_sensors
  let workflow := workflow.add_node "maintenance_predictor" predict_maintenance
  let workflow := workflow.add_node "energy_optimizer" optimize_energy
  let workflow := workflow.add_node "alert_generator" generate_alerts
  let workflow := workflow.add_node "recommendation_engine" generate_recommendations
  let workflow := workflow.add_node "decision_maker" make_decisions
  let workflow := workflow.set_entry_point "sensor_monitor"
  let workflow := workflow.add_edge "sensor_monitor" "maintenance_predictor"
  let workflow := workflow.add_edge "maintenance_predictor" "energy_optimizer"
  let workflow := workflow.add_edge "energy_optimizer" "alert_generator"
  let workflow := workflow.add_edge "alert_generator" "recommendation_engine"
  let workflow := workflow.add_edge "recommendation_engine" "decision_maker"
  let workflow := workflow.add_edge "decision_maker" END
  workflow

/-- `SmartCampusAgent._build_agent_graph`: the assembled workflow, compiled. -/
def build_agent_graph (monitor_sensors predict_maintenance optimize_energy
    generate_alerts generate_recommendations make_decisions : S → S) :
    CompiledGraph S :=
  (agent_workflow monitor_sensors predict_maintenance optimize_energy
    generate_alerts generate_recommendations make_decisions).compile

/-- One sensor reading dict `{type, value, unit}`. -/
structure SensorReading where
  type : String
  value : ℚ
  unit : String
deriving DecidableEq, Repr

/-- One building's energy dict `{current_consumption, baseline}`. -/
structure EnergyReading where
  current_consumption : ℚ
  baseline : ℚ
deriving DecidableEq, Repr

/-- One entry of `context["maintenance_predictions"]` as built by the
agent's `_predict_maintenance` stage.  `predicted_failure_date` models
`datetime.now() + timedelta(days=days_to_failure)` as an epoch-day count. -/
structure AgentMaintenancePrediction where
  equipment_id : String
  predicted_failure_date : ℤ
  confidence : ℚ
  recommended_action : String
  priority : String
deriving DecidableEq, Repr

/-- The `context` scratch dict of `CampusAgentState`.  Only
`maintenance_predictions` is inspected by the claims; the other keys are
kept as opaque entries.  A missing key and an empty list are
observationally equal here, since the agent only reads these keys with
`.get(key, [])`. -/
structure AgentContext where
  sensor_anomalies : List String
  maintenance_predictions : List AgentMaintenancePrediction
  energy_optimizations : List String
  decisions : List String
deriving DecidableEq, Repr

/-- `CampusAgentState` dataclass.  Alert and recommendation dicts are opaque
to the claims under verification and modelled as strings; `timestamp` is an
epoch-day count. -/
structure CampusAgentState where
  sensor_data : List (String × SensorReading)
  maintenance_requests : List String
  energy_data : List (String × EnergyReading)
  alerts : List String
  recommendations : List String
  current_task : Option String
  context : AgentContext
  timestamp : ℤ
deriving DecidableEq, Repr

/-- `SmartCampusAgent._predict_maintenance`: builds its predictions from the
hardcoded three-item mock equipment health list — `(id, health_score, type)`
triples — keeping each item with `health_score < 60`, with
`days_to_failure = max(1, (health_score - 20) // 5)` (Python floor
division), a fixed 0.85 confidence, and priority high iff days ≤ 7; stores
the result under `context["maintenance_predictions"]`.  `now` models
`datetime.now()` as an epoch-day count.  The input state's content is never
read. -/
def SmartCampusAgent.predict_maintenance (now : ℤ) (state : CampusAgentState) :
    CampusAgentState :=
  let equipment_data : List (String × ℤ × String) :=
    [("eq-001", 75, "hvac"), ("eq-002", 45, "elevator"), ("eq-003", 90, "generator")]
  let maintenance_predictions := equipment_data.foldl
    (fun acc equipment =>
      if equipment.2.1 < 60 then
        let days_to_failure := max 1 ((equipment.2.1 - 20).fdiv 5)
        acc ++ [{ equipment_id := equipment.1
                  predicted_failure_date := now + days_to_failure
                  confidence := 0.85
                  recommended_action :=
                    "Schedule preventive maintenance for " ++ equipment.2.2
                  priority := if days_to_failure ≤ 7 then "high" else "medium" }]
      else acc) []
  { state with
    context := { state.context with maintenance_predictions := maintenance_predictions }
    current_task := some "predict_maintenance" }

/-- `process_campus_data`'s construction of the initial agent state from
the supplied sensor and energy data (empty request/alert/recommendation
lists, no current task, empty context), with `now` for `datetime.now()`. -/
def process_initial_state (sensor_data : List (String × SensorReading))
    (energy_data : List (String × EnergyReading)) (now : ℤ) : CampusAgentState :=
  { sensor_data := sensor_data
    maintenance_requests := []
    energy_data := energy_data
    alerts := []
    recommendations := []
    current_task := none
    context := { sensor_anomalies := [], maintenance_predictions := []
                 energy_optimizations := [], decisions := [] }
    timestamp := now }

/-! ## Observation predicates for the schedule buckets

Boolean forms of the four (priority-ordered, hence mutually exclusive and
exhaustive) bucket conditions of `generate_maintenance_schedule`. -/

/-- Immediate bucket: critical risk or `days_to_failure ≤ 3`. -/
def inImmediate (p : MaintenancePrediction) : Bool :=
  decide (p.risk_level = "critical" ∨ p.days_to_failure ≤ 3)

/-- This-week bucket: not immediate, and `days_to_failure ≤ 7`. -/
def inThisWeek (p : MaintenancePrediction) : Bool :=
  !inImmediate p && decide (p.days_to_failure ≤ 7)

/-- This-month bucket: not immediate nor this-week, and `days ≤ 30`. -/
def inThisMonth (p : MaintenancePrediction) : Bool :=
  !inImmediate p && !decide (p.days_to_failure ≤ 7) && decide (p.days_to_failure ≤ 30)

/-- Next-quarter bucket: none of the previous three conditions. -/
def inNextQuarter (p : MaintenancePrediction) : Bool :=
  !inImmediate p && !decide (p.days_to_failure ≤ 7) && !decide (p.days_to_failure ≤ 30)

/-! ## Concrete sample data (for witnesses and counterexamples) -/

/-- The `eq-001` sample record from the engine script's `main()`. -/
def sampleEquipment : EquipmentData :=
  { equipment_id := "eq-001", equipment_type := "hvac", age_years := 8.5,
    usage_hours := 35000, temperature := 32.5, vibration := 3.2, pressure := 85,
    current_draw := 45.2, last_maintenance_days := 120,
    maintenance_history := ["filter_change"], failure_history := [] }

/-- A minimal well-formed prediction record, used as the fixed return value
of sample scoring functions in witnesses. -/
def samplePrediction : MaintenancePrediction :=
  { equipment_id := "eq-001", failure_probability := 1/2, days_to_failure := 100,
    confidence_score := 0.9, risk_level := "low",
    recommended_actions := ["Continue regular monitoring"], estimated_cost := 600,
    factors := ["Normal operating conditions"] }

/-! ## Spec-side definitions (for refutation / amendment of claims) -/

/-- The days-to-failure formula exactly as the claim words it:
`round((1 − p) × 365)` multiplied by the equipment-type factor, floored
at 1.  (`round` is mathematical rounding; no tie-breaking case arises at
the inputs where this is compared with the code.)  This definition follows
the claim's words, not the source: the source truncates instead of rounding
and truncates a second time after the multiplication. -/
def days_to_failure_claimed (failure_prob : ℚ) (equipment_type : String) : ℚ :=
  max 1 ((roundQ ((1 - failure_prob) * 365) : ℚ) * typeMultiplier equipment_type)

/-- The amended days-to-failure formula: truncate `(1 − p) × 365` toward
zero, multiply by the per-type factor of the claim's table (written here as
the claim lists it), truncate toward zero again, and floor at 1. -/
def days_to_failure_amended (failure_prob : ℚ) (equipment_type : String) : ℤ :=
  let factor : ℚ :=
    match equipment_type with
    | "hvac" => 1.2
    | "elevator" => 0.8
    | "generator" => 1.5
    | "pump" => 1.0
    | "lighting" => 2.0
    | _ => 1.0
  max 1 (pyTrunc ((pyTrunc ((1 - failure_prob) * 365) : ℚ) * factor))

/-! ## Helper lemmas -/

lemma StateGraph.add_node_nodes (g : StateGraph S) (n : String) (f : S → S) :
    (g.add_node n f).nodes = g.nodes ++ [(n, f)] := rfl

lemma StateGraph.add_node_edges (g : StateGraph S) (n : String) (f : S → S) :
    (g.add_node n f).edges = g.edges := rfl

lemma StateGraph.add_node_entry (g : StateGraph S) (n : String) (f : S → S) :
    (g.add_node n f).entry_point = g.entry_point := rfl

lemma StateGraph.set_entry_point_nodes (g : StateGraph S) (n : String) :
    (g.set_entry_point n).nodes = g.nodes := rfl

lemma StateGraph.set_entry_point_edges (g : StateGraph S) (n : String) :
    (g.set_entry_point n).edges = g.edges := rfl

lemma StateGraph.set_entry_point_entry (g : StateGraph S) (n : String) :
    (g.set_entry_point n).entry_point = some n := rfl

lemma StateGraph.add_edge_nodes (g : StateGraph S) (a b : String) :
    (g.add_edge a b).nodes = g.nodes := rfl

lemma StateGraph.add_edge_edges (g : StateGraph S) (a b : String) :
    (g.add_edge a b).edges = addEdgeList g.edges a b := rfl

lemma StateGraph.add_edge_entry (g : StateGraph S) (a b : String) :
    (g.add_edge a b).entry_point = g.entry_point := rfl

lemma StateGraph.compile_nodes (g : StateGraph S) : g.compile.nodes = g.nodes := rfl

lemma StateGraph.compile_edges (g : StateGraph S) : g.compile.edges = g.edges := rfl

lemma StateGraph.compile_entry (g : StateGraph S) :
    g.compile.entry_point = g.entry_point := rfl

lemma StateGraph.empty_nodes : (StateGraph.empty S).nodes = [] := rfl

lemma StateGraph.empty_edges : (StateGraph.empty S).edges = [] := rfl

lemma StateGraph.empty_entry : (StateGraph.empty S).entry_point = none := rfl

lemma CompiledGraph.eq_of_parts (g g' : CompiledGraph S) (hn : g.nodes = g'.nodes)
    (he : g.edges = g'.edges) (hp : g.entry_point = g'.entry_point) : g = g' := by
  cases g; cases g'; simp_all

/-- The compiled campus graph, as a record literal. -/
lemma build_agent_graph_parts (S : Type) (h1 h2 h3 h4 h5 h6 : S → S) :
    build_agent_graph h1 h2 h3 h4 h5 h6 =
      { nodes := [("sensor_monitor", h1), ("maintenance_predictor", h2),
          ("energy_optimizer", h3), ("alert_generator", h4),
          ("recommendation_engine", h5), ("decision_maker", h6)]
        edges := [("sensor_monitor", ["maintenance_predictor"]),
          ("maintenance_predictor", ["energy_optimizer"]),
          ("energy_optimizer", ["alert_generator"]),
          ("alert_generator", ["recommendation_engine"]),
          ("recommendation_engine", ["decision_maker"]),
          ("decision_maker", [END])]
        entry_point := some "sensor_monitor" } := by
  apply CompiledGraph.eq_of_parts
  · simp only [build_agent_graph, agent_workflow, StateGraph.compile_nodes,
      StateGraph.add_edge_nodes, StateGraph.set_entry_point_nodes,
      StateGraph.add_node_nodes, StateGraph.empty_nodes]
    simp
  · simp only [build_agent_graph, agent_workflow, StateGraph.compile_edges,
      StateGraph.add_edge_edges, StateGraph.set_entry_point_edges,
      StateGraph.add_node_edges, StateGraph.empty_edges]
    decide
  · simp only [build_agent_graph, agent_workflow, StateGraph.compile_entry,
      StateGraph.add_edge_entry, StateGraph.set_entry_point_entry,
      StateGraph.add_node_entry]

/-- The campus graph with a second (inert) edge recorded out of every
stage, as a record literal: each extra target is appended after the
original first edge. -/
lemma extra_edges_graph_parts (S : Type) (h1 h2 h3 h4 h5 h6 : S → S) :
    (agent_workflow h1 h2 h3 h4 h5 h6
      |>.add_edge "sensor_monitor" "elsewhere"
      |>.add_edge "maintenance_predictor" "elsewhere"
      |>.add_edge "energy_optimizer" "elsewhere"
      |>.add_edge "alert_generator" "elsewhere"
      |>.add_edge "recommendation_engine" "elsewhere"
      |>.add_edge "decision_maker" "elsewhere").compile =
      { nodes := [("sensor_monitor", h1), ("maintenance_predictor", h2),
          ("energy_optimizer", h3), ("alert_generator", h4),
          ("recommendation_engine", h5), ("decision_maker", h6)]
        edges := [("sensor_monitor", ["maintenance_predictor", "elsewhere"]),
          ("maintenance_predictor", ["energy_optimizer", "elsewhere"]),
          ("energy_optimizer", ["alert_generator", "elsewhere"]),
          ("alert_generator", ["recommendation_engine", "elsewhere"]),
          ("recommendation_engine", ["decision_maker", "elsewhere"]),
          ("decision_maker", [END, "elsewhere"])]
        entry_point := some "sensor_monitor" } := by
  apply CompiledGraph.eq_of_parts
  · simp only [agent_workflow, StateGraph.compile_nodes, StateGraph.add_edge_nodes,
      StateGraph.set_entry_point_nodes, StateGraph.add_node_nodes, StateGraph.empty_nodes]
    simp
  · simp only [agent_workflow, StateGraph.compile_edges, StateGraph.add_edge_edges,
      StateGraph.set_entry_point_edges, StateGraph.add_node_edges, StateGraph.empty_edges]
    decide
  · simp only [agent_workflow, StateGraph.compile_entry, StateGraph.add_edge_entry,
      StateGraph.set_entry_point_entry, StateGraph.add_node_entry]

/-- The claim's per-type day-multiplier table, written as a match, agrees
with the source's dict lookup. -/
lemma claimed_factor_eq (ty : String) :
    (match ty with
      | "hvac" => (1.2 : ℚ) | "elevator" => 0.8 | "generator" => 1.5
      | "pump" => 1.0 | "lighting" => 2.0 | _ => 1.0)
    = typeMultiplier ty := by
  split <;> simp_all [typeMultiplier]

/-- The schedule fold, started from any accumulator, appends exactly the
four bucket filters. -/
lemma schedule_foldl (preds : List MaintenancePrediction) :
    ∀ acc : MaintenanceSchedule,
    preds.foldl (fun schedule prediction =>
      if prediction.risk_level = "critical" ∨ prediction.days_to_failure ≤ 3 then
        { schedule with immediate := schedule.immediate ++ [prediction] }
      else if prediction.days_to_failure ≤ 7 then
        { schedule with this_week := schedule.this_week ++ [prediction] }
      else if prediction.days_to_failure ≤ 30 then
        { schedule with this_month := schedule.this_month ++ [prediction] }
      else
        { schedule with next_quarter := schedule.next_quarter ++ [prediction] }) acc
    = { immediate := acc.immediate ++ preds.filter inImmediate
        this_week := acc.this_week ++ preds.filter inThisWeek
        this_month := acc.this_month ++ preds.filter inThisMonth
        next_quarter := acc.next_quarter ++ preds.filter inNextQuarter } := by
  induction preds with
  | nil => intro acc; simp
  | cons p ps ih =>
    intro acc
    simp only [List.foldl_cons, ih]
    by_cases h1 : p.risk_level = "critical" ∨ p.days_to_failure ≤ 3
    · simp [h1, List.filter, inImmediate, inThisWeek, inThisMonth, inNextQuarter]
    · by_cases h2 : p.days_to_failure ≤ 7
      · simp [h1, h2, List.filter, inImmediate, inThisWeek, inThisMonth, inNextQuarter]
      · by_cases h3 : p.days_to_failure ≤ 30
        · simp [h1, h2, h3, List.filter, inImmediate, inThisWeek, inThisMonth, inNextQuarter]
        · simp [h1, h2, h3, List.filter, inImmediate, inThisWeek, inThisMonth, inNextQuarter]

/-- `generate_maintenance_schedule` is the four bucket filters. -/
lemma schedule_parts (preds : List MaintenancePrediction) :
    PredictiveMaintenanceEngine.generate_maintenance_schedule preds
    = { immediate := preds.filter inImmediate
        this_week := preds.filter inThisWeek
        this_month := preds.filter inThisMonth
        next_quarter := preds.filter inNextQuarter } := by
  unfold PredictiveMaintenanceEngine.generate_maintenance_schedule
  rw [schedule_foldl]
  simp

/-- The four bucket filters are exhaustive at the multiset level. -/
lemma schedule_length (preds : List MaintenancePrediction) :
    (preds.filter inImmediate).length + (preds.filter inThisWeek).length
      + (preds.filter inThisMonth).length + (preds.filter inNextQuarter).length
      = preds.length := by
  induction preds with
  | nil => simp
  | cons p ps ih =>
    by_cases h1 : p.risk_level = "critical" ∨ p.days_to_failure ≤ 3 <;>
    by_cases h2 : p.days_to_failure ≤ 7 <;>
    by_cases h3 : p.days_to_failure ≤ 30 <;>
    · simp [List.filter, inImmediate, inThisWeek, inThisMonth, inNextQuarter, h1, h2, h3]
      omega

/-- The batch loop keeps exactly the successful scores, in order. -/
lemma batchPredictWith_eq_filterMap
    (score : EquipmentData → Except String MaintenancePrediction) :
    ∀ l : List EquipmentData,
      batchPredictWith score l = l.filterMap (fun e => (score e).toOption) := by
  intro l
  induction l with
  | nil => rfl
  | cons e rest ih =>
    unfold batchPredictWith
    cases hs : score e <;> simp [List.filterMap_cons, hs, Except.toOption, ih]

/-- Counting lemma: kept plus dropped is everything. -/
lemma length_filterMap_add_countP
    (f : EquipmentData → Option MaintenancePrediction) :
    ∀ l : List EquipmentData,
      (l.filterMap f).length + l.countP (fun e => (f e).isNone) = l.length := by
  intro l
  induction l with
  | nil => rfl
  | cons e rest ih =>
    cases hf : f e <;>
      simp [List.filterMap_cons, List.countP_cons, hf] <;> omega

/-! ## Claims -/

/-- C1: for every initial state (and any six stage handlers, covering in
particular the agent's bound methods), `ainvoke` on the compiled campus
workflow invokes the six handlers exactly once each in the fixed order
sensor_monitor → maintenance_predictor → energy_optimizer →
alert_generator → recommendation_engine → decision_maker (trace and final
state), stopping at the terminal sentinel `END`, which is `decision_maker`'s
sole recorded successor and is not a registered node; recording a second
outgoing edge from every stage leaves the run unchanged, i.e. only the
first recorded edge is honored. -/
theorem c1_routing_fixed_order (S : Type) (h1 h2 h3 h4 h5 h6 : S → S) (s : S)
    (fuel : ℕ) (hf : 7 ≤ fuel) :
    (build_agent_graph h1 h2 h3 h4 h5 h6).ainvoke fuel s
      = (h6 (h5 (h4 (h3 (h2 (h1 s))))),
         ["sensor_monitor", "maintenance_predictor", "energy_optimizer",
          "alert_generator", "recommendation_engine", "decision_maker"])
    ∧ (agent_workflow h1 h2 h3 h4 h5 h6
        |>.add_edge "sensor_monitor" "elsewhere"
        |>.add_edge "maintenance_predictor" "elsewhere"
        |>.add_edge "energy_optimizer" "elsewhere"
        |>.add_edge "alert_generator" "elsewhere"
        |>.add_edge "recommendation_engine" "elsewhere"
        |>.add_edge "decision_maker" "elsewhere").compile.ainvoke fuel s
      = (h6 (h5 (h4 (h3 (h2 (h1 s))))),
         ["sensor_monitor", "maintenance_predictor", "energy_optimizer",
          "alert_generator", "recommendation_engine", "decision_maker"])
    ∧ (build_agent_graph h1 h2 h3 h4 h5 h6).edges.lookup "decision_maker"
      = some [END]
    ∧ (build_agent_graph h1 h2 h3 h4 h5 h6).nodes.lookup END = none := by
  obtain ⟨k, rfl⟩ : ∃ k, fuel = k + 7 := ⟨fuel - 7, by omega⟩
  refine ⟨?_, ?_, ?_, ?_⟩
  · rw [build_agent_graph_parts]
    simp [CompiledGraph.ainvoke, CompiledGraph.ainvokeAux, List.lookup, END]
  · rw [extra_edges_graph_parts]
    simp [CompiledGraph.ainvoke, CompiledGraph.ainvokeAux, List.lookup, END]
  · rw [build_agent_graph_parts]
    simp [List.lookup]
  · rw [build_agent_graph_parts]
    simp [List.lookup, END]

/-- Witness for C1: at six identity handlers over `ℕ`, state 0 and fuel 7,
the run returns state 0 with the six-stage trace. -/
theorem c1_routing_fixed_order_witness :
    7 ≤ 7 ∧ (build_agent_graph (S := ℕ) id id id id id id).ainvoke 7 0
      = (0, ["sensor_monitor", "maintenance_predictor", "energy_optimizer",
             "alert_generator", "recommendation_engine", "decision_maker"]) :=
  ⟨Nat.le_refl 7,
    (c1_routing_fixed_order ℕ id id id id id id 0 7 (Nat.le_refl 7)).1⟩

/-- C2 counterexample: two executions of `predict_maintenance` on the
identical equipment record, whose mock-model draws differ but both lie in
the support of `np.random.uniform(0.1, 0.9)` (with the same normal anomaly
draw), return different predictions — the scoring path is not a
deterministic function of the equipment record. -/
theorem c2_determinism_counterexample :
    okPrediction (PredictiveMaintenanceEngine.init.predict_maintenance
        sampleEquipment ⟨1/5, 1⟩)
      ≠ okPrediction (PredictiveMaintenanceEngine.init.predict_maintenance
        sampleEquipment ⟨1/2, 1⟩)
    ∧ (0.1 ≤ (1/5 : ℚ) ∧ (1/5 : ℚ) < 0.9)
    ∧ (0.1 ≤ (1/2 : ℚ) ∧ (1/2 : ℚ) < 0.9) := by
  refine ⟨?_, by norm_num, by norm_num⟩
  simp [okPrediction, PredictiveMaintenanceEngine.init,
    PredictiveMaintenanceEngine.predict_maintenance,
    PredictiveMaintenanceEngine.mock_training, PredictiveMaintenanceEngine.train_models,
    RandomForestRegressor.init, RandomForestRegressor.fit, RandomForestRegressor.predict,
    IsolationForest.init, IsolationForest.fit, IsolationForest.predict,
    MaintenancePrediction.mk.injEq]

/-- C2 amended: `predict_maintenance` is deterministic only relative to the
mock models' random draws: with the two draws fixed, its result is a pure
function of the equipment record, independent of the engine's training
state and of whatever history it was trained on (an untrained engine
bootstraps to the very state `train_models` produces). -/
theorem c2_deterministic_given_draws (historical : List EquipmentData)
    (eq : EquipmentData) (d : Draws) :
    PredictiveMaintenanceEngine.init.predict_maintenance eq d
      = (PredictiveMaintenanceEngine.init.train_models historical).predict_maintenance
          eq d := rfl

/-- C3 counterexample: at a concrete hvac record with temperature 80 and a
valid uniform draw of 1/2, the returned prediction's `failure_probability`
is the draw 1/2, which differs from the weighted-sum value of
`_calculate_failure_probability`; moreover the temperature factor
`max(0, (80 − 25)/50) = 1.1` exceeds 1, so not every factor lies in
`[0, 1]`. -/
theorem c3_failure_probability_counterexample :
    ((okPrediction (PredictiveMaintenanceEngine.init.predict_maintenance
        { sampleEquipment with temperature := 80 } ⟨1/2, 1⟩)).map
        (fun p => p.failure_probability)) = some (1/2)
    ∧ PredictiveMaintenanceEngine.calculate_failure_probability
        { sampleEquipment with temperature := 80 } ≠ 1/2
    ∧ max 0 (({ sampleEquipment with temperature := 80 }.temperature - 25) / 50) > 1
    ∧ (0.1 ≤ (1/2 : ℚ) ∧ (1/2 : ℚ) < 0.9) := by
  refine ⟨?_, ?_, ?_, by norm_num⟩
  · simp [okPrediction, PredictiveMaintenanceEngine.init,
      PredictiveMaintenanceEngine.predict_maintenance,
      PredictiveMaintenanceEngine.mock_training, PredictiveMaintenanceEngine.train_models,
      RandomForestRegressor.init, RandomForestRegressor.fit, RandomForestRegressor.predict,
      IsolationForest.init, IsolationForest.fit, IsolationForest.predict]
  · simp [PredictiveMaintenanceEngine.calculate_failure_probability, sampleEquipment]
    norm_num
  · simp [sampleEquipment]
    norm_num

/-- C3 amended: `_calculate_failure_probability` (the training-target
helper, not the returned probability) equals the weighted sum — weights
0.30/0.25/0.20/0.15/0.10 — of the five factors with the four non-temperature
factors capped at 1 (and in `[0, 1]` when the readings are nonnegative),
while the temperature factor is floored at 0 but NOT capped at 1; the helper
value is clamped into `[0.01, 0.99]`.  The returned prediction's
`failure_probability` is instead the mock regressor's uniform draw, which
lies in `[0.01, 0.99]` whenever it lies in its support `[0.1, 0.9)`. -/
theorem c3_failure_probability_amended (eq : EquipmentData) (d : Draws) :
    PredictiveMaintenanceEngine.calculate_failure_probability eq
      = min (max (min (eq.age_years / 20) 1 * 0.3 + min (eq.usage_hours / 50000) 1 * 0.25
          + max 0 ((eq.temperature - 25) / 50) * 0.2 + min (eq.vibration / 10) 1 * 0.15
          + min ((eq.last_maintenance_days : ℚ) / 365) 1 * 0.1) 0.01) 0.99
    ∧ 0.01 ≤ PredictiveMaintenanceEngine.calculate_failure_probability eq
    ∧ PredictiveMaintenanceEngine.calculate_failure_probability eq ≤ 0.99
    ∧ min (eq.age_years / 20) 1 ≤ 1 ∧ min (eq.usage_hours / 50000) 1 ≤ 1
    ∧ min (eq.vibration / 10) 1 ≤ 1 ∧ min ((eq.last_maintenance_days : ℚ) / 365) 1 ≤ 1
    ∧ 0 ≤ max 0 ((eq.temperature - 25) / 50)
    ∧ (0 ≤ eq.age_years ∧ 0 ≤ eq.usage_hours ∧ 0 ≤ eq.vibration
          ∧ 0 ≤ eq.last_maintenance_days
        → 0 ≤ min (eq.age_years / 20) 1 ∧ 0 ≤ min (eq.usage_hours / 50000) 1
          ∧ 0 ≤ min (eq.vibration / 10) 1
          ∧ 0 ≤ min ((eq.last_maintenance_days : ℚ) / 365) 1)
    ∧ (okPrediction (PredictiveMaintenanceEngine.init.predict_maintenance eq d)).map
        (fun p => p.failure_probability) = some d.failure_draw
    ∧ (0.1 ≤ d.failure_draw ∧ d.failure_draw < 0.9
        → 0.01 ≤ d.failure_draw ∧ d.failure_draw ≤ 0.99) := by
  refine ⟨rfl, ?_, ?_, min_le_right _ _, min_le_right _ _, min_le_right _ _,
    min_le_right _ _, le_max_left _ _, ?_, ?_, ?_⟩
  · exact le_min (le_max_right _ _) (by norm_num)
  · exact min_le_right _ _
  · rintro ⟨ha, hu, hv, hm⟩
    have hm' : (0:ℚ) ≤ (eq.last_maintenance_days : ℚ) := by exact_mod_cast hm
    refine ⟨le_min (by positivity) (by norm_num), le_min (by positivity) (by norm_num),
      le_min (by positivity) (by norm_num), le_min (by positivity) (by norm_num)⟩
  · simp [okPrediction, PredictiveMaintenanceEngine.init,
      PredictiveMaintenanceEngine.predict_maintenance,
      PredictiveMaintenanceEngine.mock_training, PredictiveMaintenanceEngine.train_models,
      RandomForestRegressor.init, RandomForestRegressor.fit, RandomForestRegressor.predict,
      IsolationForest.init, IsolationForest.fit, IsolationForest.predict]
  · rintro ⟨hlo, hhi⟩
    constructor <;> linarith

/-- Witness for C3 amended: at the sample hvac record (nonnegative
readings) and draw 1/2, the four capped factors are nonnegative and the
draw lies in `[0.01, 0.99]`. -/
theorem c3_failure_probability_amended_witness :
    (0 ≤ sampleEquipment.age_years ∧ 0 ≤ sampleEquipment.usage_hours
      ∧ 0 ≤ sampleEquipment.vibration ∧ 0 ≤ sampleEquipment.last_maintenance_days)
    ∧ (0.1 ≤ (1/2 : ℚ) ∧ (1/2 : ℚ) < 0.9)
    ∧ (0 ≤ min (sampleEquipment.age_years / 20) 1
      ∧ 0 ≤ min (sampleEquipment.usage_hours / 50000) 1
      ∧ 0 ≤ min (sampleEquipment.vibration / 10) 1
      ∧ 0 ≤ min ((sampleEquipment.last_maintenance_days : ℚ) / 365) 1)
    ∧ (0.01 ≤ (1/2 : ℚ) ∧ (1/2 : ℚ) ≤ 0.99) :=
  ⟨by norm_num [sampleEquipment], by norm_num,
    (c3_failure_probability_amended sampleEquipment ⟨1/2, 1⟩).2.2.2.2.2.2.2.2.1
      (by norm_num [sampleEquipment]),
    (c3_failure_probability_amended sampleEquipment ⟨1/2, 1⟩).2.2.2.2.2.2.2.2.2.2
      (by norm_num)⟩

/-- C4 counterexample: at failure probability 0.25 and a pump record, the
code computes `max(1, int(int((1 − 0.25) × 365) × 1.0)) = int(273.75) = 273`
days, while the claim's formula `round((1 − p) × 365) × 1.0` floored at 1
gives 274: the code truncates, it does not round. -/
theorem c4_days_to_failure_counterexample :
    PredictiveMaintenanceEngine.calculate_days_to_failure 0.25
        { sampleEquipment with equipment_type := "pump" } = 273
    ∧ days_to_failure_claimed 0.25 "pump" = 274
    ∧ ((273 : ℤ) : ℚ) ≠ (274 : ℚ) := by
  refine ⟨?_, ?_, by norm_num⟩
  · simp [PredictiveMaintenanceEngine.calculate_days_to_failure, pyTrunc,
      typeMultiplier, sampleEquipment]
    norm_num
  · simp [days_to_failure_claimed, roundQ, typeMultiplier]
    norm_num

/-- C4 amended: days to failure equals the claim's formula with both
roundings replaced by truncation toward zero — truncate `(1 − p) × 365`,
multiply by the claimed per-type factor table (hvac 1.2, elevator 0.8,
generator 1.5, pump 1.0, lighting 2.0, default 1.0), truncate again, floor
at 1 — and in particular is always at least 1. -/
theorem c4_days_to_failure_amended (p : ℚ) (eq : EquipmentData) :
    PredictiveMaintenanceEngine.calculate_days_to_failure p eq
      = days_to_failure_amended p eq.equipment_type
    ∧ 1 ≤ PredictiveMaintenanceEngine.calculate_days_to_failure p eq := by
  constructor
  · unfold PredictiveMaintenanceEngine.calculate_days_to_failure days_to_failure_amended
    rw [← claimed_factor_eq]
  · exact le_max_left 1 _

/-- C5: the risk level is the first matching case of the cascade —
critical on anomaly, probability > 0.8 or days ≤ 7; else high on
probability > 0.6 or days ≤ 30; else medium on probability > 0.4 or
days ≤ 90; else low — and a raised anomaly flag alone forces critical. -/
theorem c5_risk_level (p : ℚ) (d : ℤ) (a : Bool) :
    (PredictiveMaintenanceEngine.determine_risk_level p d a = "critical"
      ↔ (a = true ∨ p > 0.8 ∨ d ≤ 7))
    ∧ (PredictiveMaintenanceEngine.determine_risk_level p d a = "high"
      ↔ (¬(a = true ∨ p > 0.8 ∨ d ≤ 7) ∧ (p > 0.6 ∨ d ≤ 30)))
    ∧ (PredictiveMaintenanceEngine.determine_risk_level p d a = "medium"
      ↔ (¬(a = true ∨ p > 0.8 ∨ d ≤ 7) ∧ ¬(p > 0.6 ∨ d ≤ 30) ∧ (p > 0.4 ∨ d ≤ 90)))
    ∧ (PredictiveMaintenanceEngine.determine_risk_level p d a = "low"
      ↔ (¬(a = true ∨ p > 0.8 ∨ d ≤ 7) ∧ ¬(p > 0.6 ∨ d ≤ 30) ∧ ¬(p > 0.4 ∨ d ≤ 90)))
    ∧ PredictiveMaintenanceEngine.determine_risk_level p d true = "critical" := by
  unfold PredictiveMaintenanceEngine.determine_risk_level
  split_ifs <;> simp_all

/-- C5 witness: at probability 1/2, 100 days and a raised anomaly flag, the
risk level is critical. -/
theorem c5_risk_level_witness :
    PredictiveMaintenanceEngine.determine_risk_level (1/2) 100 true = "critical" :=
  (c5_risk_level (1/2) 100 true).2.2.2.2

/-- C6: `generate_maintenance_schedule` partitions its input: a prediction
of the input list lands in `immediate` iff critical risk or days ≤ 3, else
in `this_week` iff days ≤ 7, else in `this_month` iff days ≤ 30, else in
`next_quarter` (the four conditions are priority-ordered, mutually
exclusive and exhaustive), and the four bucket sizes sum to the input
length, so every prediction lands in exactly one bucket. -/
theorem c6_schedule_partition (preds : List MaintenancePrediction)
    (pr : MaintenancePrediction) (h : pr ∈ preds) :
    (pr ∈ (PredictiveMaintenanceEngine.generate_maintenance_schedule preds).immediate
      ↔ (pr.risk_level = "critical" ∨ pr.days_to_failure ≤ 3))
    ∧ (pr ∈ (PredictiveMaintenanceEngine.generate_maintenance_schedule preds).this_week
      ↔ (¬(pr.risk_level = "critical" ∨ pr.days_to_failure ≤ 3)
          ∧ pr.days_to_failure ≤ 7))
    ∧ (pr ∈ (PredictiveMaintenanceEngine.generate_maintenance_schedule preds).this_month
      ↔ (¬(pr.risk_level = "critical" ∨ pr.days_to_failure ≤ 3)
          ∧ ¬pr.days_to_failure ≤ 7 ∧ pr.days_to_failure ≤ 30))
    ∧ (pr ∈ (PredictiveMaintenanceEngine.generate_maintenance_schedule preds).next_quarter
      ↔ (¬(pr.risk_level = "critical" ∨ pr.days_to_failure ≤ 3)
          ∧ ¬pr.days_to_failure ≤ 7 ∧ ¬pr.days_to_failure ≤ 30))
    ∧ (PredictiveMaintenanceEngine.generate_maintenance_schedule preds).immediate.length
        + (PredictiveMaintenanceEngine.generate_maintenance_schedule preds).this_week.length
        + (PredictiveMaintenanceEngine.generate_maintenance_schedule preds).this_month.length
        + (PredictiveMaintenanceEngine.generate_maintenance_schedule preds).next_quarter.length
        = preds.length := by
  rw [schedule_parts]
  refine ⟨?_, ?_, ?_, ?_, schedule_length preds⟩ <;>
  simp [List.mem_filter, h, inImmediate, inThisWeek, inThisMonth, inNextQuarter, and_assoc]

/-- C6 witness: the singleton schedule of the low-risk 100-day sample
prediction has bucket sizes summing to 1. -/
theorem c6_schedule_partition_witness :
    samplePrediction ∈ [samplePrediction]
    ∧ (PredictiveMaintenanceEngine.generate_maintenance_schedule
          [samplePrediction]).immediate.length
      + (PredictiveMaintenanceEngine.generate_maintenance_schedule
          [samplePrediction]).this_week.length
      + (PredictiveMaintenanceEngine.generate_maintenance_schedule
          [samplePrediction]).this_month.length
      + (PredictiveMaintenanceEngine.generate_maintenance_schedule
          [samplePrediction]).next_quarter.length
      = [samplePrediction].length :=
  ⟨by simp,
    (c6_schedule_partition [samplePrediction] samplePrediction (by simp)).2.2.2.2⟩

/-- C7: the batch loop (with `score` standing for the per-item
`self.predict_maintenance` call of `batch_predict`) isolates per-item
failures: when scoring fails on exactly one item of the list, the result is
the successful items' predictions in input order, of length N − 1. -/
theorem c7_batch_isolation
    (score : EquipmentData → Except String MaintenancePrediction)
    (l : List EquipmentData)
    (h : l.countP (fun e => (((score e).toOption)).isNone) = 1) :
    batchPredictWith score l = l.filterMap (fun e => (score e).toOption)
    ∧ (batchPredictWith score l).length = l.length - 1 := by
  refine ⟨batchPredictWith_eq_filterMap score l, ?_⟩
  have hc := length_filterMap_add_countP (fun e => (score e).toOption) l
  rw [batchPredictWith_eq_filterMap score l]
  omega

/-- C7 witness: with a scorer failing exactly on equipment id "bad", a
two-item batch with one bad item yields the one successful prediction. -/
theorem c7_batch_isolation_witness :
    ([sampleEquipment, { sampleEquipment with equipment_id := "bad" }].countP
      (fun e => (((fun e : EquipmentData =>
        if e.equipment_id = "bad" then
          (Except.error "boom" : Except String MaintenancePrediction)
        else Except.ok samplePrediction) e).toOption).isNone)) = 1
    ∧ batchPredictWith
        (fun e : EquipmentData =>
          if e.equipment_id = "bad" then
            (Except.error "boom" : Except String MaintenancePrediction)
          else Except.ok samplePrediction)
        [sampleEquipment, { sampleEquipment with equipment_id := "bad" }]
      = [samplePrediction]
    ∧ (batchPredictWith
        (fun e : EquipmentData =>
          if e.equipment_id = "bad" then
            (Except.error "boom" : Except String MaintenancePrediction)
          else Except.ok samplePrediction)
        [sampleEquipment, { sampleEquipment with equipment_id := "bad" }]).length
      = [sampleEquipment, { sampleEquipment with equipment_id := "bad" }].length - 1 :=
  ⟨by decide,
    ((c7_batch_isolation _ _ (by decide)).1).trans rfl,
    (c7_batch_isolation _ _ (by decide)).2⟩

/-- C8 counterexample: on the empty initial state (empty registry
snapshot), the agent's `_predict_maintenance` stage stores one prediction,
for the hardcoded `eq-002`, while the Scoring Module's batch form applied
to the (empty) registry snapshot yields no predictions — the stage does not
invoke the Scoring Module on registry data. -/
theorem c8_stage_counterexample :
    ((SmartCampusAgent.predict_maintenance 0
        (process_initial_state [] [] 0)).context.maintenance_predictions.map
        (fun p => p.equipment_id)) = ["eq-002"]
    ∧ ((PredictiveMaintenanceEngine.init.batch_predict [] (fun _ => ⟨1/2, 1⟩)).2.map
        (fun p => p.equipment_id)) = []
    ∧ ["eq-002"] ≠ ([] : List String) := by
  refine ⟨?_, rfl, by simp⟩
  simp [SmartCampusAgent.predict_maintenance, process_initial_state]

/-- C8 amended: the `maintenance_predictor` stage never reads the input
state or any registry; it computes its predictions from the hardcoded
three-item health list (eq-001 75 hvac, eq-002 45 elevator, eq-003 90
generator), keeping exactly the items with health score < 60 — i.e. always
exactly the one eq-002 record with
`days_to_failure = max(1, (45 − 20) // 5) = 5`, failure date five days from
now, confidence 0.85 and priority high. -/
theorem c8_stage_amended (now : ℤ) (state : CampusAgentState) :
    (SmartCampusAgent.predict_maintenance now state).context.maintenance_predictions
      = [{ equipment_id := "eq-002", predicted_failure_date := now + 5,
           confidence := 0.85,
           recommended_action := "Schedule preventive maintenance for elevator",
           priority := "high" }] := by
  simp [SmartCampusAgent.predict_maintenance]

/-- C9: the anomaly detector's `predict` before any `fit` fails with the
model-not-fitted error, and `predict_maintenance` on the untrained engine
first bootstraps a mock training (leaving the engine trained with both
models fitted) and then always returns a prediction — the caller never
observes the error. -/
theorem c9_lazy_bootstrap (d : ℤ) (eq : EquipmentData) (dr : Draws) :
    IsolationForest.init.predict d = .error "Model not fitted"
    ∧ ∃ e p, PredictiveMaintenanceEngine.init.predict_maintenance eq dr = .ok (e, p)
        ∧ e.is_trained = true ∧ e.anomaly_detector.is_fitted = true
        ∧ e.failure_model.is_fitted = true :=
  ⟨rfl, _, _, rfl, rfl, rfl, rfl⟩

/-- C10: for nonnegative equipment age, the confidence score of the
returned prediction — which is `_calculate_confidence` of the record — lies
in `[0.80, 0.95]`: base 0.70 plus the constant 0.10 sensor-consistency term
bound it below by 0.80, and the cap bounds it above by 0.95. -/
theorem c10_confidence_bounds (eq : EquipmentData) (d : Draws)
    (h : 0 ≤ eq.age_years) :
    0.8 ≤ PredictiveMaintenanceEngine.calculate_confidence eq
    ∧ PredictiveMaintenanceEngine.calculate_confidence eq ≤ 0.95
    ∧ (okPrediction (PredictiveMaintenanceEngine.init.predict_maintenance eq d)).map
        (fun p => p.confidence_score)
      = some (PredictiveMaintenanceEngine.calculate_confidence eq) := by
  refine ⟨?_, min_le_right _ _, ?_⟩
  · unfold PredictiveMaintenanceEngine.calculate_confidence
    have h1 : (0:ℚ) ≤ min ((eq.maintenance_history.length : ℚ) / 10) 0.2 := by
      positivity
    have h2 : (0:ℚ) ≤ min (eq.age_years / 10) 0.1 := by positivity
    refine le_min (by linarith) (by norm_num)
  · simp [okPrediction, PredictiveMaintenanceEngine.init,
      PredictiveMaintenanceEngine.predict_maintenance,
      PredictiveMaintenanceEngine.mock_training, PredictiveMaintenanceEngine.train_models,
      RandomForestRegressor.init, RandomForestRegressor.fit, RandomForestRegressor.predict,
      IsolationForest.init, IsolationForest.fit, IsolationForest.predict]

/-- C10 witness: the sample hvac record has nonnegative age and its
confidence score lies in the bounds. -/
theorem c10_confidence_bounds_witness :
    0 ≤ sampleEquipment.age_years
    ∧ 0.8 ≤ PredictiveMaintenanceEngine.calculate_confidence sampleEquipment
    ∧ PredictiveMaintenanceEngine.calculate_confidence sampleEquipment ≤ 0.95 :=
  ⟨by norm_num [sampleEquipment],
    (c10_confidence_bounds sampleEquipment ⟨1/2, 1⟩
      (by norm_num [sampleEquipment])).1,
    (c10_confidence_bounds sampleEquipment ⟨1/2, 1⟩
      (by norm_num [sampleEquipment])).2.1⟩

end Campus
